import Mathlib

/-!
Shallow embedding of the thermal-camera data pipeline in
src/thermal_network/src/thermal_data.cpp (class ThermalData).

Modelling conventions:
* `uint8_t` bytes are `Fin 256`; `uint16_t` and `int` quantities are `Nat`
  (or `Int` where a value can be negative), with the operations written so
  that no overflow is possible on the ranges the code manipulates.
* `float` quantities (`diff_`, `scale_`, temperatures) are modelled as exact
  rationals; the code only forms them from exactly representable integers,
  and the claims that depend on them concern the formulas, not rounding.
* The conversion of a nonnegative `float` to `uint16_t` truncates toward
  zero, modelled with `Int.toNat` of the floor.
* The conversion of an `int` to `uint8_t` is reduction mod 256, modelled
  with `%` on `Int` followed by `Int.toNat`.
* The receive loop of `temp_data` is modelled over the list of values
  returned by the four `recvfrom` calls of one frame.
-/

set_option maxRecDepth 16384

namespace ThermalSpec

/-- The constant `myImageWidth_` (160). -/
def myImageWidth : Nat := 160

/-- The constant `myImageHeight_` (120). -/
def myImageHeight : Nat := 120

/-- The request size `sizeof(shelf_[i])`: bytes asked of each `recvfrom`. -/
def segmentSize : Int := 9840

/-- The palette table `colormap_ironblack_`, transcribed verbatim. -/
def colormap_ironblack : List Int :=
  [ 255, 255, 255, 253, 253, 253, 251, 251, 251, 249, 249, 249, 247, 247, 247, 245, 245, 245, 243,
   243, 243, 241, 241, 241, 239, 239, 239, 237, 237, 237, 235, 235, 235, 233, 233, 233, 231, 231,
   231, 229, 229, 229, 227, 227, 227, 225, 225, 225, 223, 223, 223, 221, 221, 221, 219, 219, 219,
   217, 217, 217, 215, 215, 215, 213, 213, 213, 211, 211, 211, 209, 209, 209, 207, 207, 207, 205,
   205, 205, 203, 203, 203, 201, 201, 201, 199, 199, 199, 197, 197, 197, 195, 195, 195, 193, 193,
   193, 191, 191, 191, 189, 189, 189, 187, 187, 187, 185, 185, 185, 183, 183, 183, 181, 181, 181,
   179, 179, 179, 177, 177, 177, 175, 175, 175, 173, 173, 173, 171, 171, 171, 169, 169, 169, 167,
   167, 167, 165, 165, 165, 163, 163, 163, 161, 161, 161, 159, 159, 159, 157, 157, 157, 155, 155,
   155, 153, 153, 153, 151, 151, 151, 149, 149, 149, 147, 147, 147, 145, 145, 145, 143, 143, 143,
   141, 141, 141, 139, 139, 139, 137, 137, 137, 135, 135, 135, 133, 133, 133, 131, 131, 131, 129,
   129, 129, 126, 126, 126, 124, 124, 124, 122, 122, 122, 120, 120, 120, 118, 118, 118, 116, 116,
   116, 114, 114, 114, 112, 112, 112, 110, 110, 110, 108, 108, 108, 106, 106, 106, 104, 104, 104,
   102, 102, 102, 100, 100, 100, 98, 98, 98, 96, 96, 96, 94, 94, 94, 92, 92, 92, 90, 90, 90, 88,
   88, 88, 86, 86, 86, 84, 84, 84, 82, 82, 82, 80, 80, 80, 78, 78, 78, 76, 76, 76, 74, 74, 74, 72,
   72, 72, 70, 70, 70, 68, 68, 68, 66, 66, 66, 64, 64, 64, 62, 62, 62, 60, 60, 60, 58, 58, 58, 56,
   56, 56, 54, 54, 54, 52, 52, 52, 50, 50, 50, 48, 48, 48, 46, 46, 46, 44, 44, 44, 42, 42, 42, 40,
   40, 40, 38, 38, 38, 36, 36, 36, 34, 34, 34, 32, 32, 32, 30, 30, 30, 28, 28, 28, 26, 26, 26, 24,
   24, 24, 22, 22, 22, 20, 20, 20, 18, 18, 18, 16, 16, 16, 14, 14, 14, 12, 12, 12, 10, 10, 10, 8,
   8, 8, 6, 6, 6, 4, 4, 4, 2, 2, 2, 0, 0, 0, 0, 0, 9, 2, 0, 16, 4, 0, 24, 6, 0, 31, 8, 0, 38, 10,
   0, 45, 12, 0, 53, 14, 0, 60, 17, 0, 67, 19, 0, 74, 21, 0, 82, 23, 0, 89, 25, 0, 96, 27, 0, 103,
   29, 0, 111, 31, 0, 118, 36, 0, 120, 41, 0, 121, 46, 0, 122, 51, 0, 123, 56, 0, 124, 61, 0, 125,
   66, 0, 126, 71, 0, 127, 76, 1, 128, 81, 1, 129, 86, 1, 130, 91, 1, 131, 96, 1, 132, 101, 1,
   133, 106, 1, 134, 111, 1, 135, 116, 1, 136, 121, 1, 136, 125, 2, 137, 130, 2, 137, 135, 3, 137,
   139, 3, 138, 144, 3, 138, 149, 4, 138, 153, 4, 139, 158, 5, 139, 163, 5, 139, 167, 5, 140, 172,
   6, 140, 177, 6, 140, 181, 7, 141, 186, 7, 141, 189, 10, 137, 191, 13, 132, 194, 16, 127, 196,
   19, 121, 198, 22, 116, 200, 25, 111, 203, 28, 106, 205, 31, 101, 207, 34, 95, 209, 37, 90, 212,
   40, 85, 214, 43, 80, 216, 46, 75, 218, 49, 69, 221, 52, 64, 223, 55, 59, 224, 57, 49, 225, 60,
   47, 226, 64, 44, 227, 67, 42, 228, 71, 39, 229, 74, 37, 230, 78, 34, 231, 81, 32, 231, 85, 29,
   232, 88, 27, 233, 92, 24, 234, 95, 22, 235, 99, 19, 236, 102, 17, 237, 106, 14, 238, 109, 12,
   239, 112, 12, 240, 116, 12, 240, 119, 12, 241, 123, 12, 241, 127, 12, 242, 130, 12, 242, 134,
   12, 243, 138, 12, 243, 141, 13, 244, 145, 13, 244, 149, 13, 245, 152, 13, 245, 156, 13, 246,
   160, 13, 246, 163, 13, 247, 167, 13, 247, 171, 13, 248, 175, 14, 248, 178, 15, 249, 182, 16,
   249, 185, 18, 250, 189, 19, 250, 192, 20, 251, 196, 21, 251, 199, 22, 252, 203, 23, 252, 206,
   24, 253, 210, 25, 253, 213, 27, 254, 217, 28, 254, 220, 29, 255, 224, 30, 255, 227, 39, 255,
   229, 53, 255, 231, 67, 255, 233, 81, 255, 234, 95, 255, 236, 109, 255, 238, 123, 255, 240, 137,
   255, 242, 151, 255, 244, 165, 255, 246, 179, 255, 248, 193, 255, 249, 207, 255, 251, 221, 255,
   253, 235, 255, 255, 24, -1]

/-- The table size `selectedColormapSize_ = colormap_ironblack_.size()`. -/
def colormapSize : Nat := colormap_ironblack.length

/-- The calibration fields of the node:
`autoRangeMin_`, `autoRangeMax_`, `minValue_`, `maxValue_`, `diff_`, `scale_`. -/
structure Calib where
  autoRangeMin : Bool
  autoRangeMax : Bool
  minValue : Nat
  maxValue : Nat
  diff : Rat
  scale : Rat
deriving DecidableEq

/-- The member-initializer state of the node: `autoRangeMin_ = false`,
`autoRangeMax_ = false`, `minValue_ = rangeMin_ = 27300`,
`maxValue_ = rangeMax_ = 31500`, `diff_ = maxValue_ - minValue_`,
`scale_ = 255 / diff_`. -/
def initCalib : Calib :=
  { autoRangeMin := false
    autoRangeMax := false
    minValue := 27300
    maxValue := 31500
    diff := (31500 : Rat) - 27300
    scale := 255 / ((31500 : Rat) - 27300) }

/-- A frame: the four segment buffers `shelf_[0..3]`, each a byte array;
`f seg j` is byte `j` of segment `seg`. -/
def Frame : Type := Nat -> Nat -> Fin 256

/-- The decoded sample
`(shelf_[iSegment - 1][i * 2] << 8) + shelf_[iSegment - 1][i * 2 + 1]`,
with `seg = iSegment - 1`. -/
def value (f : Frame) (seg i : Nat) : Nat :=
  (f seg (i * 2)).val * 256 + (f seg (i * 2 + 1)).val

/-- One iteration of the auto-range scanning loop body (lines 186-200):
skip header positions (`i % 82 < 2`), skip zero samples, then update
`maxValue_` when auto-max is on and the sample exceeds it, and `minValue_`
when auto-min is on and the sample is below it. -/
def scanStep (f : Frame) (seg : Nat) (c : Calib) (i : Nat) : Calib :=
  if i % 82 < 2 then c
  else if value f seg i = 0 then c
  else
    let v := value f seg i
    let c1 := if c.autoRangeMax = true ∧ c.maxValue < v then { c with maxValue := v } else c
    if c.autoRangeMin = true ∧ v < c.minValue then { c1 with minValue := v } else c1

/-- The scanning loop over one segment (`for (int i = 0; i < 4920; i++)`). -/
def scanSegment (f : Frame) (seg : Nat) (c : Calib) : Calib :=
  (List.range 4920).foldl (scanStep f seg) c

/-- The scanning loop over the four segments
(`for (int iSegment = 1; iSegment <= 4; iSegment++)`, with
`seg = iSegment - 1`). -/
def scanAll (f : Frame) (c : Calib) : Calib :=
  (List.range 4).foldl (fun c seg => scanSegment f seg c) c

/-- The auto-ranging pass of `process_data` (lines 178-204): when either
flag is set, first `if (autoRangeMin_) maxValue_ = 65535;` then
`if (autoRangeMax_) minValue_ = 0;`, then the scan, then
`diff_ = maxValue_ - minValue_; scale_ = 255 / diff_;`. -/
def autoRangePass (f : Frame) (c : Calib) : Calib :=
  if c.autoRangeMin || c.autoRangeMax then
    let c0 := if c.autoRangeMin then { c with maxValue := 65535 } else c
    let c1 := if c0.autoRangeMax then { c0 with minValue := 0 } else c0
    let c2 := scanAll f c1
    { c2 with
      diff := (((c2.maxValue : Int) - (c2.minValue : Int) : Int) : Rat)
      scale := 255 / (((c2.maxValue : Int) - (c2.minValue : Int) : Int) : Rat) }
  else c

/-- The clamped intensity `value` computed at lines 220-226:
`if (!autoRangeMax_ && (valueFrameBuffer > maxValue_)) value = maxValue_;
else if (!autoRangeMin_ && (valueFrameBuffer <= minValue_)) value = minValue_;
else value = (valueFrameBuffer - minValue_) * scale_;`
(the last branch is a `float` product truncated into a `uint16_t`). -/
def intensity (c : Calib) (v : Nat) : Nat :=
  if c.autoRangeMax = false ∧ c.maxValue < v then c.maxValue
  else if c.autoRangeMin = false ∧ v ≤ c.minValue then c.minValue
  else Int.toNat ⌊((v : Rat) - (c.minValue : Rat)) * c.scale⌋

/-- The per-channel offset clamp of lines 228-236:
`if (selectedColormapSize_ <= ofs) ofs = selectedColormapSize_ - 1;`. -/
def clampOfs (ofs : Nat) : Nat :=
  if colormapSize ≤ ofs then colormapSize - 1 else ofs

/-- The byte stored from `selectedColormap_[ofs]`: an `int` palette entry
converted to `uint8_t` (reduction mod 256; `-1` becomes `255`). -/
def palette (ofs : Nat) : Nat :=
  Int.toNat ((colormap_ironblack.getD ofs 0) % 256)

/-- Line 237: `column = (i % 82) - 2 + (myImageWidth_ / 2) * ((i % (82 * 2)) / 82)`
(line 237). -/
def column (i : Nat) : Nat :=
  (i % 82) - 2 + (myImageWidth / 2) * ((i % (82 * 2)) / 82)

/-- Lines 210 and 238: `row = i / 82 / 2 + ofsRow`, `ofsRow = 30 * (iSegment - 1)`,
`seg = iSegment - 1` (lines 210, 238). -/
def row (i seg : Nat) : Nat := i / 82 / 2 + 30 * seg

/-- The per-frame output state: `image_data_`, `temperature_data_` and the
drop counter `n_zero_value_drop_frame_`. -/
structure OutState where
  image : List Nat
  temps : List Rat
  drops : Nat

/-- The construction-time output state: both buffers zero-filled
(`std::vector` value initialization), counter 0. -/
def outInit : OutState :=
  { image := List.replicate (myImageWidth * myImageHeight * 3) 0
    temps := List.replicate (myImageWidth * myImageHeight) 0
    drops := 0 }

/-- Lines 220-244 for one non-header, nonzero sample `v` at position `i`
of segment `seg`: intensity, channel offsets, temperature, destination,
and the bounds-guarded writes into `image_data_` and `temperature_data_`. -/
def writeSample (c : Calib) (seg i v : Nat) (st : OutState) : OutState :=
  let val := intensity c v
  let ofs_r := clampOfs (3 * val + 0)
  let ofs_g := clampOfs (3 * val + 1)
  let ofs_b := clampOfs (3 * val + 2)
  let temperature : Rat := (v : Rat) / 100 - 273
  let r := row i seg
  let col := column i
  if r < myImageHeight ∧ col < myImageWidth then
    { st with
      image :=
        ((st.image.set ((r * myImageWidth + col) * 3 + 0) (palette ofs_b)).set
          ((r * myImageWidth + col) * 3 + 1) (palette ofs_g)).set
          ((r * myImageWidth + col) * 3 + 2) (palette ofs_r)
      temps := st.temps.set (r * myImageWidth + col) temperature }
  else st

/-- The decoding loop over one segment (lines 211-245), written with the
remaining iteration count as fuel: position `i` runs up while the fuel runs
down; header positions are skipped, a zero sample increments the drop
counter and leaves the loop (`break`), any other sample is written. -/
def processFrom (f : Frame) (c : Calib) (seg : Nat) :
    Nat -> Nat -> OutState -> OutState
  | 0, _, st => st
  | fuel + 1, i, st =>
    if i % 82 < 2 then processFrom f c seg fuel (i + 1) st
    else if value f seg i = 0 then { st with drops := st.drops + 1 }
    else processFrom f c seg fuel (i + 1) (writeSample c seg i (value f seg i) st)

/-- One segment of the decoding pass: `for (int i = 0; i < 4920; i++)`. -/
def processSegment (f : Frame) (c : Calib) (seg : Nat) (st : OutState) : OutState :=
  processFrom f c seg 4920 0 st

/-- The decoding pass over the four segments (lines 209-246). -/
def decodePass (f : Frame) (c : Calib) (st : OutState) : OutState :=
  (List.range 4).foldl (fun st seg => processSegment f c seg st) st

/-- The whole of `process_data` (lines 173-249): the auto-ranging pass, the decoding
pass, then the reset of the drop counter; returns the calibration state
and the output state (publishing is outside the model). -/
def process_data (f : Frame) (c : Calib) (st : OutState) : Calib × OutState :=
  let c2 := autoRangePass f c
  let st2 := decodePass f c2 st
  (c2, if st2.drops ≠ 0 then { st2 with drops := 0 } else st2)

/-- The receive loop body of `temp_data` (lines 157-167) over the list of
the four `recvfrom` return values of one frame: the code checks only
`received_bytes < 0`; the result is `true` exactly when the loop completes
and `process_data` is invoked. -/
def recvLoop : List Int -> Bool
  | [] => true
  | r :: rest => if r < 0 then false else recvLoop rest

/-! ### Concrete inputs -/

/-- The all-zero frame: every byte of every segment is 0. -/
def zeroFrame : Frame := fun _ _ => (0 : Fin 256)

/-- A frame whose every byte pair decodes to 30000 (high byte 117, low
byte 48: 117 * 256 + 48 = 30000). -/
def frame30000 : Frame :=
  fun _ j => if j % 2 = 0 then (117 : Fin 256) else (48 : Fin 256)

/-- The node state with only `autoRangeMax_` switched on. -/
def calibAutoMax : Calib := { initCalib with autoRangeMax := true }

/-- A degenerate calibration state: auto-min on with `minValue_` already
at 65535, and a nonzero previous `diff_`. -/
def calibDegenerate : Calib :=
  { autoRangeMin := true
    autoRangeMax := false
    minValue := 65535
    maxValue := 31500
    diff := 4200
    scale := 255 / 4200 }

/-! ### Helper lemmas -/

theorem foldl_fixed {A B : Type} (g : A -> B -> A) (c : A) (h : ∀ b, g c b = c) :
    ∀ l : List B, l.foldl g c = c
  | [] => rfl
  | b :: l => by rw [List.foldl_cons, h b]; exact foldl_fixed g c h l

theorem foldl_preserve {A B : Type} (P : A -> Prop) (g : A -> B -> A)
    (h : ∀ c b, P c -> P (g c b)) :
    ∀ (l : List B) (c : A), P c -> P (l.foldl g c)
  | [], _, hc => hc
  | b :: l, c, hc => by
    rw [List.foldl_cons]
    exact foldl_preserve P g h l (g c b) (h c b hc)

theorem value_zeroFrame (seg i : Nat) : value zeroFrame seg i = 0 := rfl

theorem value_frame30000 (seg i : Nat) : value frame30000 seg i = 30000 := by
  unfold value frame30000
  rw [if_pos (show i * 2 % 2 = 0 by omega), if_neg (show ¬ (i * 2 + 1) % 2 = 0 by omega)]
  decide

theorem scanStep_zeroFrame (seg : Nat) (c : Calib) (i : Nat) :
    scanStep zeroFrame seg c i = c := by
  unfold scanStep
  rw [value_zeroFrame]
  simp

theorem scanStep_frame30000 (seg : Nat) (c : Calib) (i : Nat)
    (hmin : c.autoRangeMin = false) (hmax : c.maxValue = 31500) :
    scanStep frame30000 seg c i = c := by
  unfold scanStep
  rw [value_frame30000]
  simp [hmin, hmax]

theorem scanAll_zeroFrame (c : Calib) : scanAll zeroFrame c = c := by
  unfold scanAll
  refine foldl_fixed _ _ (fun seg => ?_) _
  exact foldl_fixed _ _ (fun i => scanStep_zeroFrame seg c i) _

theorem scanAll_frame30000 (c : Calib)
    (hmin : c.autoRangeMin = false) (hmax : c.maxValue = 31500) :
    scanAll frame30000 c = c := by
  unfold scanAll
  refine foldl_fixed _ _ (fun seg => ?_) _
  exact foldl_fixed _ _ (fun i => scanStep_frame30000 seg c i hmin hmax) _

theorem processFrom_succ (f : Frame) (c : Calib) (seg fuel i : Nat) (st : OutState) :
    processFrom f c seg (fuel + 1) i st =
      if i % 82 < 2 then processFrom f c seg fuel (i + 1) st
      else if value f seg i = 0 then { st with drops := st.drops + 1 }
      else processFrom f c seg fuel (i + 1) (writeSample c seg i (value f seg i) st) := rfl

theorem processSegment_zero_at_two (f : Frame) (c : Calib) (seg : Nat) (st : OutState)
    (h : value f seg 2 = 0) :
    processSegment f c seg st = { st with drops := st.drops + 1 } := by
  unfold processSegment
  rw [show (4920 : Nat) = 4919 + 1 by norm_num, processFrom_succ]
  simp only [show (0 : Nat) % 82 < 2 by norm_num, if_true]
  rw [show (4919 : Nat) = 4918 + 1 by norm_num, processFrom_succ]
  simp only [show (0 + 1 : Nat) % 82 < 2 by norm_num, if_true]
  rw [show (4918 : Nat) = 4917 + 1 by norm_num, processFrom_succ]
  have h2 : (0 + 1 + 1 : Nat) = 2 := rfl
  rw [h2, h]
  simp

theorem decodePass_eq (f : Frame) (c : Calib) (st : OutState) :
    decodePass f c st =
      processSegment f c 3
        (processSegment f c 2 (processSegment f c 1 (processSegment f c 0 st))) := rfl


/-! ### Claim C1 -/

theorem autoRangePass_calibAutoMax :
    autoRangePass frame30000 calibAutoMax =
      { autoRangeMin := false
        autoRangeMax := true
        minValue := 0
        maxValue := 31500
        diff := (((31500 : Int) - (0 : Int) : Int) : Rat)
        scale := 255 / (((31500 : Int) - (0 : Int) : Int) : Rat) } := by
  have hscan : scanAll frame30000 { calibAutoMax with minValue := 0 } =
      { calibAutoMax with minValue := 0 } := scanAll_frame30000 _ rfl rfl
  unfold autoRangePass
  simp only [calibAutoMax, initCalib] at hscan ⊢
  norm_num
  norm_num at hscan
  rw [hscan]
  norm_num

/-- C1: the auto-ranging pass does not seed `maxValue_` at 0 when auto-max
is enabled: the two seed assignments are crossed in the code
(`autoRangeMin_` resets `maxValue_` to 65535, `autoRangeMax_` resets
`minValue_` to 0).  On a frame whose every sample is 30000, with auto-max
enabled and auto-min disabled, `maxValue_` stays at its previous value
31500 instead of becoming the largest non-zero sample 30000, and
`minValue_` is clobbered to 0 although auto-min is disabled. -/
theorem C1_autorange_seed_eval :
    (∀ seg i, value frame30000 seg i = 30000) ∧
    calibAutoMax.autoRangeMax = true ∧ calibAutoMax.autoRangeMin = false ∧
    (autoRangePass frame30000 calibAutoMax).maxValue = 31500 ∧
    (autoRangePass frame30000 calibAutoMax).maxValue ≠ 30000 ∧
    (autoRangePass frame30000 calibAutoMax).minValue = 0 := by
  refine ⟨fun seg i => value_frame30000 seg i, rfl, rfl, ?_, ?_, ?_⟩
  · rw [autoRangePass_calibAutoMax]
  · rw [autoRangePass_calibAutoMax]; decide
  · rw [autoRangePass_calibAutoMax]

/-! ### Claim C2 -/

/-- C2: with both auto flags disabled (the configured state), a sample at
or below `minValue_` gets clamped intensity `minValue_` (27300), not 0,
and a sample above `maxValue_` gets clamped intensity `maxValue_` (31500),
not 255: the code assigns the raw bound itself to the intensity variable. -/
theorem C2_clamp_eval :
    initCalib.autoRangeMax = false ∧ initCalib.autoRangeMin = false ∧
    initCalib.minValue = 27300 ∧ initCalib.maxValue = 31500 ∧
    intensity initCalib 40000 = 31500 ∧ intensity initCalib 40000 ≠ 255 ∧
    intensity initCalib 27000 = 27300 ∧ intensity initCalib 27000 ≠ 0 := by
  decide

/-! ### Claim C3 -/

/-- C3 counterexample: on the all-zero frame the drop counter reaches 4 --
one increment per segment, because a zero sample leaves the whole segment
loop (`break`) -- not one increment per abandoned row (240 packet rows, or
120 image rows, would be abandoned on such a frame under the claim). -/
theorem C3_zero_break_cex :
    (decodePass zeroFrame initCalib outInit).drops = 4 ∧
    (4 : Nat) ≠ 240 ∧ (4 : Nat) ≠ 120 := by
  rw [decodePass_eq,
    processSegment_zero_at_two _ _ _ _ (value_zeroFrame 0 2),
    processSegment_zero_at_two _ _ _ _ (value_zeroFrame 1 2),
    processSegment_zero_at_two _ _ _ _ (value_zeroFrame 2 2),
    processSegment_zero_at_two _ _ _ _ (value_zeroFrame 3 2)]
  refine ⟨rfl, by norm_num, by norm_num⟩

/-- C3 amended: a decoded value of exactly 0 increments the drop counter
and abandons the remainder of the entire current segment, so over a frame
where every raw sample equals 0 the counter increments exactly once per
segment: four times per frame. -/
theorem C3_zero_break_amended (f : Frame) (c : Calib) (st : OutState)
    (h : ∀ seg i, value f seg i = 0) :
    (decodePass f c st).drops = st.drops + 4 := by
  rw [decodePass_eq,
    processSegment_zero_at_two _ _ _ _ (h 0 2),
    processSegment_zero_at_two _ _ _ _ (h 1 2),
    processSegment_zero_at_two _ _ _ _ (h 2 2),
    processSegment_zero_at_two _ _ _ _ (h 3 2)]

/-- Witness for C3: the amended theorem applied to the all-zero frame. -/
theorem C3_zero_break_amended_wit :
    (decodePass zeroFrame initCalib outInit).drops = outInit.drops + 4 :=
  C3_zero_break_amended zeroFrame initCalib outInit (fun _ _ => rfl)

/-! ### Claim C4 -/

/-- C4 counterexample: a frame whose fourth `recvfrom` returns only 100 of
the 9840 requested bytes still completes the receive loop, and
`process_data` is invoked: short reads are not detected, only a negative
return value is. -/
theorem C4_short_read_cex :
    recvLoop [9840, 9840, 9840, 100] = true ∧ (100 : Int) < segmentSize := by
  decide

/-- C4 amended: the receive loop is fatal exactly on a transport error (a
negative `recvfrom` return): the loop completes and `process_data` runs if
and only if every read returned a nonnegative byte count; a short but
nonnegative read is not detected. -/
theorem C4_error_only_amended (reads : List Int) :
    recvLoop reads = true ↔ ∀ r ∈ reads, 0 ≤ r := by
  induction reads with
  | nil => simp [recvLoop]
  | cons r rest ih =>
    rw [List.forall_mem_cons]
    by_cases h : r < 0
    · simp only [recvLoop, if_pos h]
      constructor
      · intro hf; exact absurd hf (by decide)
      · rintro ⟨h0, _⟩; omega
    · simp only [recvLoop, if_neg h, ih]
      constructor
      · intro hrest; exact ⟨by omega, hrest⟩
      · rintro ⟨_, hrest⟩; exact hrest

/-- Witness for C4: four full reads reach `process_data`. -/
theorem C4_error_only_amended_wit : recvLoop [9840, 9840, 9840, 9840] = true :=
  (C4_error_only_amended [9840, 9840, 9840, 9840]).mpr (by decide)


/-! ### Claim C5 -/

/-- C5 counterexample: the colormap has 769 entries.  Intensity 255 reads
channel offsets 765-767, and offset 767 holds the value 24 -- one of the
trailing values the claim calls the sentinel; further, a channel offset at
or past the table end is clamped to the final index 768, whose entry is
the sentinel -1 (stored as the byte 255), not the final valid triplet. -/
theorem C5_sentinel_cex :
    colormapSize = 769 ∧
    clampOfs (3 * 255 + 2) = 767 ∧ colormap_ironblack.getD 767 0 = 24 ∧
    clampOfs 769 = 768 ∧ clampOfs 1000 = 768 ∧
    colormap_ironblack.getD 768 0 = -1 ∧ palette 768 = 255 := by decide

/-- C5 amended: requesting intensity 255 uses channel offsets 765, 766 and
767, all below the table size 769, so no clamping occurs and only the last
three triplet values are read (the trailing -1 at index 768 is untouched);
but any channel offset at or past the table end is clamped to the final
index 768, whose entry is the trailing sentinel -1. -/
theorem C5_sentinel_amended :
    (∀ k, k < 3 → clampOfs (3 * 255 + k) = 765 + k ∧ 765 + k < 768) ∧
    (∀ ofs, colormapSize ≤ ofs → clampOfs ofs = 768) ∧
    colormapSize = 769 ∧ colormap_ironblack.getD 768 0 = -1 := by
  refine ⟨?_, ?_, by decide, by decide⟩
  · intro k hk
    have h3 : k = 0 ∨ k = 1 ∨ k = 2 := by omega
    rcases h3 with h | h | h <;> subst h <;> exact ⟨by decide, by decide⟩
  · intro ofs h
    unfold clampOfs
    rw [if_pos h]
    decide

/-- Witness for C5: the amended theorem at channel 0 of intensity 255 and
at the out-of-table offset 769. -/
theorem C5_sentinel_amended_wit :
    (clampOfs (3 * 255 + 0) = 765 + 0 ∧ 765 + 0 < 768) ∧ clampOfs 769 = 768 :=
  ⟨C5_sentinel_amended.1 0 (by decide), C5_sentinel_amended.2.1 769 (by decide)⟩

/-! ### Claim C6 -/

/-- The column formula as the spec states it:
`column = (i mod 82) - 2 + 80 * ((i mod 164) div 82)`. -/
def columnSpec (i : Nat) : Nat := (i % 82) - 2 + 80 * ((i % 164) / 82)

/-- The row formula as the spec states it, with 1-based segment index `s`:
`row = (i div 82 div 2) + 30 * (s - 1)`. -/
def rowSpec (i s : Nat) : Nat := i / 82 / 2 + 30 * (s - 1)

/-- C6: for every non-skipped position the code computes exactly the spec
formulas for column and row (with `seg = s - 1` for the 1-based segment
index `s`), and positions with `i % 82 < 2` are skipped entirely by the
decode loop: no decode, no write, no counter change. -/
theorem C6_position_mapping :
    (∀ i, 2 ≤ i % 82 → column i = columnSpec i) ∧
    (∀ i s, 1 ≤ s → s ≤ 4 → row i (s - 1) = rowSpec i s) ∧
    (∀ (f : Frame) (c : Calib) (seg fuel i : Nat) (st : OutState), i % 82 < 2 →
      processFrom f c seg (fuel + 1) i st = processFrom f c seg fuel (i + 1) st) := by
  refine ⟨fun i _ => rfl, fun i s _ _ => rfl, ?_⟩
  intro f c seg fuel i st h
  rw [processFrom_succ, if_pos h]

/-- Witness for C6: the mapping at position 84 of segment 1 and the skip
at the header position 0. -/
theorem C6_position_mapping_wit :
    column 84 = columnSpec 84 ∧ row 84 (1 - 1) = rowSpec 84 1 ∧
    processFrom zeroFrame initCalib 0 (0 + 1) 0 outInit =
      processFrom zeroFrame initCalib 0 0 (0 + 1) outInit :=
  ⟨C6_position_mapping.1 84 (by decide),
    C6_position_mapping.2.1 84 1 (by decide) (by decide),
    C6_position_mapping.2.2 zeroFrame initCalib 0 0 0 outInit (by decide)⟩

/-! ### Claim C8 -/

/-- C8: for every sample value `v` written by the decode loop, the value
stored in the temperature grid at the destination cell is exactly
`v / 100 - 273` (centi-Kelvin calibration), the floats modelled as exact
rationals. -/
theorem C8_temperature (c : Calib) (seg i v : Nat) (st : OutState)
    (hr : row i seg < myImageHeight) (hc : column i < myImageWidth)
    (hlen : st.temps.length = myImageWidth * myImageHeight) :
    ((writeSample c seg i v st).temps)[row i seg * myImageWidth + column i]? =
      some ((v : Rat) / 100 - 273) := by
  unfold writeSample
  rw [if_pos ⟨hr, hc⟩]
  dsimp only
  apply List.getElem?_set_eq_of_lt
  rw [hlen]
  unfold myImageWidth myImageHeight at *
  omega

/-- Witness for C8: the sample 30000 at position 2 of segment 0 lands at
cell (0, 0) carrying temperature 30000 / 100 - 273 = 27. -/
theorem C8_temperature_wit :
    ((writeSample initCalib 0 2 30000 outInit).temps)[row 2 0 * myImageWidth + column 2]? =
      some ((30000 : Rat) / 100 - 273) :=
  C8_temperature initCalib 0 2 30000 outInit (by decide) (by decide)
    (by simp [outInit])

/-! ### Claim C9 -/

/-- C9: with both auto-range flags disabled, `process_data` leaves the
whole calibration state (`minValue_`, `maxValue_`, `diff_`, `scale_`)
unchanged: the scanning pass does not run, and the decode pass never
writes the calibration fields. -/
theorem C9_fixed_range (f : Frame) (c : Calib) (st : OutState)
    (hmin : c.autoRangeMin = false) (hmax : c.autoRangeMax = false) :
    (process_data f c st).1 = c := by
  show autoRangePass f c = c
  unfold autoRangePass
  rw [hmin, hmax]
  simp

/-- Witness for C9: the configured state of the node is untouched by a
frame. -/
theorem C9_fixed_range_wit :
    (process_data zeroFrame initCalib outInit).1 = initCalib :=
  C9_fixed_range zeroFrame initCalib outInit rfl rfl

/-! ### Claim C10 -/

/-- C10: under the fixed configuration, every non-skipped position of
every segment yields a column below 160 and a row below 120, so the
bounds-check discard branch never fires, and all buffer index expressions
stay within the buffer sizes (57600 image bytes, 19200 temperature cells,
9840 segment bytes). -/
theorem C10_bounds (i seg : Nat) (hi : i < 4920) (hh : 2 ≤ i % 82) (hs : seg ≤ 3) :
    column i < myImageWidth ∧ row i seg < myImageHeight ∧
    (row i seg * myImageWidth + column i) * 3 + 2 < myImageWidth * myImageHeight * 3 ∧
    row i seg * myImageWidth + column i < myImageWidth * myImageHeight ∧
    i * 2 + 1 ≤ 9839 := by
  unfold column row myImageWidth myImageHeight
  omega

/-- Witness for C10: the first data position of the first segment. -/
theorem C10_bounds_wit :
    column 2 < myImageWidth ∧ row 2 0 < myImageHeight ∧
    (row 2 0 * myImageWidth + column 2) * 3 + 2 < myImageWidth * myImageHeight * 3 ∧
    row 2 0 * myImageWidth + column 2 < myImageWidth * myImageHeight ∧
    2 * 2 + 1 ≤ 9839 :=
  C10_bounds 2 0 (by decide) (by decide) (by decide)

/-! ### Claim C7 -/

theorem scanStep_bounds (f : Frame) (seg i : Nat) (c : Calib)
    (h : c.minValue ≤ 27300 ∧ 31500 ≤ c.maxValue) :
    (scanStep f seg c i).minValue ≤ 27300 ∧ 31500 ≤ (scanStep f seg c i).maxValue := by
  unfold scanStep
  by_cases h0 : i % 82 < 2
  · rw [if_pos h0]; exact h
  rw [if_neg h0]
  by_cases hz : value f seg i = 0
  · rw [if_pos hz]; exact h
  rw [if_neg hz]
  dsimp only
  by_cases hmax : c.autoRangeMax = true ∧ c.maxValue < value f seg i
  · rw [if_pos hmax]
    by_cases hmin : c.autoRangeMin = true ∧ value f seg i < c.minValue
    · rw [if_pos hmin]
      constructor
      · show value f seg i ≤ 27300
        have := hmin.2; omega
      · show 31500 ≤ value f seg i
        have := hmax.2; omega
    · rw [if_neg hmin]
      constructor
      · show c.minValue ≤ 27300
        exact h.1
      · show 31500 ≤ value f seg i
        have := hmax.2; omega
  · rw [if_neg hmax]
    by_cases hmin : c.autoRangeMin = true ∧ value f seg i < c.minValue
    · rw [if_pos hmin]
      constructor
      · show value f seg i ≤ 27300
        have := hmin.2; omega
      · show 31500 ≤ c.maxValue
        exact h.2
    · rw [if_neg hmin]
      exact h

theorem scanSegment_bounds (f : Frame) (seg : Nat) (c : Calib)
    (h : c.minValue ≤ 27300 ∧ 31500 ≤ c.maxValue) :
    (scanSegment f seg c).minValue ≤ 27300 ∧ 31500 ≤ (scanSegment f seg c).maxValue :=
  foldl_preserve (fun c => c.minValue ≤ 27300 ∧ 31500 ≤ c.maxValue) (scanStep f seg)
    (fun c i hc => scanStep_bounds f seg i c hc) (List.range 4920) c h

theorem scanAll_bounds (f : Frame) (c : Calib)
    (h : c.minValue ≤ 27300 ∧ 31500 ≤ c.maxValue) :
    (scanAll f c).minValue ≤ 27300 ∧ 31500 ≤ (scanAll f c).maxValue :=
  foldl_preserve (fun c => c.minValue ≤ 27300 ∧ 31500 ≤ c.maxValue)
    (fun c seg => scanSegment f seg c)
    (fun c seg hc => scanSegment_bounds f seg c hc) (List.range 4) c h

theorem autoRangePass_calibDegenerate :
    autoRangePass zeroFrame calibDegenerate =
      { autoRangeMin := true
        autoRangeMax := false
        minValue := 65535
        maxValue := 65535
        diff := 0
        scale := 255 / (0 : Rat) } := by
  have hscan : scanAll zeroFrame { calibDegenerate with maxValue := 65535 } =
      { calibDegenerate with maxValue := 65535 } := scanAll_zeroFrame _
  unfold autoRangePass
  simp only [calibDegenerate] at hscan ⊢
  norm_num
  norm_num at hscan
  rw [hscan]
  norm_num

/-- C7 counterexample: the scale computation has no degenerate-range
guard.  From a state with auto-min enabled and `minValue_` already 65535,
an all-zero frame drives the auto-range pass to `minValue_ = maxValue_`,
so `diff_` becomes 0 -- it is neither clamped to at least 1 nor reset to
the previous (nonzero) range -- and `scale_ = 255 / diff_` divides by
zero. -/
theorem C7_degenerate_cex :
    calibDegenerate.diff = 4200 ∧
    (autoRangePass zeroFrame calibDegenerate).diff = 0 ∧
    ¬ 1 ≤ (autoRangePass zeroFrame calibDegenerate).diff ∧
    (autoRangePass zeroFrame calibDegenerate).minValue =
      (autoRangePass zeroFrame calibDegenerate).maxValue := by
  rw [autoRangePass_calibDegenerate]
  refine ⟨by norm_num [calibDegenerate], by norm_num, by norm_num, by norm_num⟩

/-- The calibration states reachable from the node's configured constants:
`minValue_` never exceeds its configured 27300, `maxValue_` never drops
below its configured 31500, and `diff_` stays positive. -/
def CalibInv (c : Calib) : Prop :=
  c.minValue ≤ 27300 ∧ 31500 ≤ c.maxValue ∧ 0 < c.diff

/-- The calibration invariant produced by a scan from a seeded state: the
record built by the auto-range pass from any scan start whose bounds
straddle the configured range satisfies the invariant. -/
theorem calibInv_mk_scan (f : Frame) (c1 : Calib)
    (h1 : c1.minValue ≤ 27300) (h2 : 31500 ≤ c1.maxValue) :
    CalibInv
      { autoRangeMin := (scanAll f c1).autoRangeMin
        autoRangeMax := (scanAll f c1).autoRangeMax
        minValue := (scanAll f c1).minValue
        maxValue := (scanAll f c1).maxValue
        diff := ((scanAll f c1).maxValue : Rat) - ((scanAll f c1).minValue : Rat)
        scale := 255 / (((scanAll f c1).maxValue : Rat) - ((scanAll f c1).minValue : Rat)) } := by
  have h3 := scanAll_bounds f c1 ⟨h1, h2⟩
  refine ⟨h3.1, h3.2, ?_⟩
  show (0 : Rat) < ((scanAll f c1).maxValue : Rat) - ((scanAll f c1).minValue : Rat)
  have hlt : ((scanAll f c1).minValue : Rat) < ((scanAll f c1).maxValue : Rat) := by
    have hn : (scanAll f c1).minValue < (scanAll f c1).maxValue := by
      have ha := h3.1
      have hb := h3.2
      omega
    exact_mod_cast hn
  linarith

/-- C7 amended: the code contains no explicit degenerate-range guard (see
the counterexample), but from the configured initial state none is ever
needed: the auto-range pass only widens the gap between the bounds --
`minValue_` is only seeded to 0 or decreased, `maxValue_` only seeded to
65535 or increased -- so every reachable calibration state keeps
`minValue_ ≤ 27300 < 31500 ≤ maxValue_` and a positive `diff_`, and the
division `255 / diff_` never has a zero denominator in executions of the
program. -/
theorem C7_no_guard_amended :
    CalibInv initCalib ∧
    ∀ (f : Frame) (c : Calib), CalibInv c → CalibInv (autoRangePass f c) := by
  constructor
  · norm_num [CalibInv, initCalib]
  intro f c hc
  unfold autoRangePass
  cases hbm : c.autoRangeMin <;> cases hbx : c.autoRangeMax
  · norm_num [hbm, hbx]
    exact hc
  · norm_num [hbm, hbx]
    exact calibInv_mk_scan f _ (by norm_num) (by exact hc.2.1)
  · norm_num [hbm, hbx]
    exact calibInv_mk_scan f _ (by exact hc.1) (by norm_num)
  · norm_num [hbm, hbx]
    exact calibInv_mk_scan f _ (by norm_num) (by norm_num)

/-- Witness for C7: the invariant holds at the configured state and is
kept by a frame. -/
theorem C7_no_guard_amended_wit : CalibInv (autoRangePass zeroFrame initCalib) :=
  C7_no_guard_amended.2 zeroFrame initCalib (by norm_num [CalibInv, initCalib])

end ThermalSpec
